import Mathlib

/-!
Verification of the hourly server digest script (`scripts/digest.py`).

The script is embedded shallowly:
* `runOut` models `run(cmd)`: the combined stdout+stderr text of the
  underlying command, stripped of surrounding whitespace.
* `ProbeOutput` holds the raw combined output of each of the twenty
  shell commands `collect()` executes, in source order.
* `collect` builds the ordered section mapping exactly as the Python
  dict literal does (Python dicts preserve insertion order).
* `build_prompt` renders the prompt; `tgChunks` models the 4000-character
  slicing in `tg`; `tgLoop` models the send loop with a reply oracle;
  `mainModel` models `main()` with oracles for the fallible external
  steps (config load, collection, the Claude call, Telegram delivery).
-/

namespace Digest

/-- The `MODEL` constant of the script. -/
def MODEL : String := "claude-sonnet-4-6"

/-- `str.strip()` on the code-point sequence: drop leading and trailing
whitespace characters. -/
def pyStrip (l : List Char) : List Char :=
  ((l.dropWhile Char.isWhitespace).reverse.dropWhile Char.isWhitespace).reverse

/-- `run(cmd)` returns `(r.stdout + r.stderr).strip()`; the raw argument
here is the combined stdout+stderr text of the command. -/
def runOut (raw : String) : String := String.mk (pyStrip raw.data)

/-- Python `x or fb` for strings: `fb` when `x` is empty. -/
def orFallback (v fb : String) : String := if v = "" then fb else v

/-- Raw combined stdout+stderr of each shell command executed by
`collect()`, in source order.  A failed command is represented by
whatever (possibly empty or whitespace-only) text it produced. -/
structure ProbeOutput where
  dockerContainers : String
  dockerStats : String
  openclawLogs : String
  freeMem : String
  freeSwap : String
  dfRoot : String
  uptimeLoad : String
  uptimeP : String
  establishedConns : String
  tcpTotal : String
  tcpEstab : String
  tcpTimewait : String
  tcpSynrecv : String
  topIps : String
  fail2banStatus : String
  fail2banLog : String
  sshFails : String
  systemErrors : String
  monitorLog : String
  backupLog : String
deriving DecidableEq

/-- The nine section keys of the snapshot, in insertion order. -/
def sectionKeys : List String :=
  ["docker_containers", "docker_stats", "openclaw_logs", "system_resources",
   "established_connections", "network_security", "system_errors",
   "monitor_log", "backup_log"]

/-- `collect()`: the ordered section mapping, translated line by line
from the source.  Note that `docker_containers` has no `or` fallback. -/
def collect (p : ProbeOutput) : List (String × String) :=
  [ ("docker_containers", runOut p.dockerContainers),
    ("docker_stats", orFallback (runOut p.dockerStats) "(no containers running)"),
    ("openclaw_logs", orFallback (runOut p.openclawLogs) "(no logs)"),
    ("system_resources", String.intercalate "\n"
      [ "Memory: " ++ runOut p.freeMem,
        "Swap:   " ++ runOut p.freeSwap,
        "Disk:   " ++ runOut p.dfRoot,
        "Load:   " ++ runOut p.uptimeLoad,
        "Uptime: " ++ runOut p.uptimeP ]),
    ("established_connections", orFallback (runOut p.establishedConns) "(none)"),
    ("network_security", String.intercalate "\n"
      [ "TCP stats:      " ++ runOut p.tcpTotal,
        "Established:    " ++ runOut p.tcpEstab ++ " connections",
        "TIME_WAIT:      " ++ runOut p.tcpTimewait,
        "SYN_RECV:       " ++ runOut p.tcpSynrecv ++ "  ← >50 может быть SYN flood",
        "Top source IPs: \n" ++ orFallback (runOut p.topIps) "(none)",
        "SSH failed auth (1h): " ++ runOut p.sshFails,
        "fail2ban status:\n" ++ orFallback (runOut p.fail2banStatus) "(fail2ban not available)",
        "fail2ban events (1h):\n" ++ orFallback (runOut p.fail2banLog) "(no events)" ]),
    ("system_errors", orFallback (runOut p.systemErrors) "(none)"),
    ("monitor_log", orFallback (runOut p.monitorLog) "(empty)"),
    ("backup_log", orFallback (runOut p.backupLog) "(empty)") ]

/-- Value stored under key `k` in an ordered section mapping. -/
def sectionValue (s : List (String × String)) (k : String) : Option String :=
  (s.find? (fun q => q.1 == k)).map Prod.snd

/-- A probe outcome in which every command produced only whitespace. -/
def probeWs : ProbeOutput :=
  ⟨" \n", " \n", " \n", " \n", " \n", " \n", " \n", " \n", " \n", " \n",
   " \n", " \n", " \n", " \n", " \n", " \n", " \n", " \n", " \n", " \n"⟩

/-- The fixed preamble lines of `build_prompt` (everything before the
section loop), with the timestamp interpolated into the second line.
Literal braces of the source are written with escapes. -/
def preamble (now : String) : List String :=
  [ "You are monitoring server \x27openclaw-tg-bot\x27 (OpenClaw AI agent + Telegram bot).",
    "Report time: " ++ now ++ " UTC",
    "",
    "Write a terse server status report. Output plain Telegram HTML only.",
    "Style: Teenage Engineering — minimal, technical, no fluff, no emoji, no box-drawing chars.",
    "",
    "RULES:",
    "- Section headers: <b>CAPS</b>",
    "- Values: <code>value</code>",
    "- Warnings/errors: <b>!!</b> prefix",
    "- NO separator lines (no ─── or --- or ===)",
    "- NO emoji at all",
    "- Blank line between sections",
    "- Lowercase labels, CAPS for status values: OK / WARN / CRIT",
    "- Max 35 lines. Cut anything that is normal/expected.",
    "- Language: Russian for descriptions, English for technical terms",
    "",
    "EXACT FORMAT:",
    "",
    "<b>OPENCLAW-TG-BOT</b>  \x7bDD MON YYYY\x7d  <code>\x7bHH:MM\x7d UTC</code>",
    "",
    "<b>STATUS</b>  OK",
    "",
    "<b>CONTAINERS</b>",
    "openclaw-gateway  <code>up 22m</code>  cpu <code>0.07%</code>  ram <code>359mb</code>",
    "",
    "<b>RESOURCES</b>",
    "cpu <code>0.07%</code>  load <code>0.14 0.15 0.12</code>",
    "mem <code>1.5/3.7G</code> <code>40%</code>  disk <code>13/38G</code> <code>35%</code>",
    "uptime <code>3d 5h</code>",
    "",
    "<b>NETWORK</b>",
    "estab <code>5</code>  syn_recv <code>1</code>  time_wait <code>3</code>",
    "ssh fails <code>201/h</code>",
    "fail2ban <code>3</code> banned",
    "active sessions: <code>79.152.30.156</code> ssh x2  <code>176.120.22.47</code> ssh x1",
    "",
    "<b>EVENTS</b>",
    "<code>16:09</code> openclaw-gateway restart (sigterm) — ok",
    "",
    "<b>!! \x7bконкретная проблема и что делать\x7d</b>",
    "",
    "OMIT any section where there is nothing notable.",
    "OMIT the !! block entirely if STATUS is OK.",
    "For NETWORK active sessions: identify type (ssh/api/etc) and group by IP.",
    "For threats: exact numbers, no vague wording." ]

/-- The three lines the section loop appends for one section:
`=== {title} ===`, the content, and a blank line. -/
def sectionBlock (title content : String) : List String :=
  ["=== " ++ title ++ " ===", content, ""]

/-- Concatenation of the section blocks, in section order. -/
def blocksCat : List (String × String) → List String
  | [] => []
  | q :: rest => sectionBlock q.1 q.2 ++ blocksCat rest

/-- The full `lines` list of `build_prompt` just before the join. -/
def promptLines (sections : List (String × String)) (now : String) : List String :=
  preamble now ++ blocksCat sections

/-- `build_prompt(sections, now)`: newline-join of the lines list. -/
def build_prompt (sections : List (String × String)) (now : String) : String :=
  String.intercalate "\n" (promptLines sections now)

/-- The lines list split into blocks: the preamble, then one block per
section.  Block `j+1` depends only on section `j`. -/
def promptBlocks (sections : List (String × String)) (now : String) : List (List String) :=
  preamble now :: sections.map (fun q => sectionBlock q.1 q.2)

/-- Fuel-indexed chunking; with fuel at least the list length it
computes the slices `text[i:i+4000]` of the `tg` loop. -/
def tgChunksAux : Nat → List Char → List (List Char)
  | 0, _ => []
  | _ + 1, [] => []
  | fuel + 1, c :: cs => ((c :: cs).take 4000) :: tgChunksAux fuel ((c :: cs).drop 4000)

/-- The chunk list `[text[i:i+4000] for i in range(0, len(text), 4000)]`
of `tg`, over the code-point sequence of the text. -/
def tgChunks (l : List Char) : List (List Char) := tgChunksAux l.length l

/-- One step of chunking as a pure length computation. -/
def chunkLensAux : Nat → Nat → List Nat
  | 0, _ => []
  | _ + 1, 0 => []
  | fuel + 1, n + 1 => min 4000 (n + 1) :: chunkLensAux fuel (n + 1 - 4000)

/-- The lengths of the chunks of a text of length `n`. -/
def chunkLens (n : Nat) : List Nat := chunkLensAux n n

/-- The parsed JSON reply Telegram returns for one chunk: its `ok`
field and its rendering used in the error log line. -/
structure TgReply where
  ok : Bool
  rendered : String

/-- Observable actions of the `tg` send loop. -/
inductive TgEvent where
  | sent (chunk : List Char)
  | logged (msg : String)
deriving DecidableEq

/-- The `for chunk in ...` loop of `tg`, with `replies i` the reply the
API returns for the chunk at index `i`: each chunk is posted, a non-ok
reply is logged as a TG error, and the loop continues regardless. -/
def tgLoop (replies : Nat → TgReply) : Nat → List (List Char) → List TgEvent
  | _, [] => []
  | i, c :: cs =>
      TgEvent.sent c ::
        ((if (replies i).ok then [] else [TgEvent.logged ("TG error: " ++ (replies i).rendered)]) ++
          tgLoop replies (i + 1) cs)

/-- `tg(text)` under a reply oracle: run the loop over the chunks. -/
def tgModel (replies : Nat → TgReply) (text : String) : List TgEvent :=
  tgLoop replies 0 (tgChunks text.data)

/-- The chunks actually posted, in send order. -/
def sentChunks (evs : List TgEvent) : List (List Char) :=
  evs.filterMap (fun e => match e with | .sent c => some c | _ => none)

/-- The text `main` hands to `tg` on the success path. -/
def deliveredText (now report : String) : String :=
  "📊 <b>Hourly digest</b> — " ++ now ++ " UTC\n\n" ++ report

/-- The error notice sent when loading the API key fails. -/
def keyErrNotice (e : String) : String := "🔴 <b>digest error</b>: " ++ e

/-- The error notice sent when the main try-block fails. -/
def runErrNotice (e : String) : String :=
  "🔴 <b>digest script error</b>: <code>" ++ e ++ "</code>"

/-- Observable actions of `main`: audit-log lines and calls handing a
text to `tg` (recorded whether or not the call then succeeds). -/
inductive Event where
  | logged (msg : String)
  | tgAttempt (text : String)
deriving DecidableEq

/-- Result of a run: its event trace and the process exit status. -/
structure RunOutcome where
  events : List Event
  exitCode : Nat
deriving DecidableEq

/-- `main()`, with oracles for the fallible external steps: `keyLoad`
for reading `primaryApiKey` from the config file, `collectR` for the
probe battery (its raw outputs, or an exception), `claudeR` for the
summarizer call on the built prompt, `tgR` for the success-path
delivery.  An `Except.error e` means the step raised `e`.  Falling off
the end of `main` exits 0; `sys.exit(1)` exits 1. -/
def mainModel (keyLoad : Except String String)
    (collectR : Except String ProbeOutput)
    (claudeR : String → Except String String)
    (tgR : Except String Unit) (now : String) : RunOutcome :=
  match keyLoad with
  | .error e =>
      ⟨[.logged "digest started",
        .logged ("ERROR loading API key: " ++ e),
        .tgAttempt (keyErrNotice e)], 1⟩
  | .ok _ =>
      match collectR with
      | .error e =>
          ⟨[.logged "digest started",
            .logged ("ERROR: " ++ e),
            .tgAttempt (runErrNotice e)], 1⟩
      | .ok p =>
          match claudeR (build_prompt (collect p) now) with
          | .error e =>
              ⟨[.logged "digest started",
                .logged ("data collected, calling " ++ MODEL),
                .logged ("ERROR: " ++ e),
                .tgAttempt (runErrNotice e)], 1⟩
          | .ok report =>
              match tgR with
              | .error e =>
                  ⟨[.logged "digest started",
                    .logged ("data collected, calling " ++ MODEL),
                    .logged "response received, sending to Telegram",
                    .tgAttempt (deliveredText now report),
                    .logged ("ERROR: " ++ e),
                    .tgAttempt (runErrNotice e)], 1⟩
              | .ok _ =>
                  ⟨[.logged "digest started",
                    .logged ("data collected, calling " ++ MODEL),
                    .logged "response received, sending to Telegram",
                    .tgAttempt (deliveredText now report),
                    .logged "digest sent OK"], 0⟩

/-- The texts handed to `tg`, in order of attempt. -/
def tgAttemptTexts (evs : List Event) : List String :=
  evs.filterMap (fun e => match e with | .tgAttempt t => some t | _ => none)

/-- A fixed timestamp of the shape `strftime` produces in `main`. -/
def nowStamp : String := "2026-01-01 00:00"

/-- A report of exactly 9000 characters. -/
def report9000 : String := String.mk (List.replicate 9000 'a')

/-- C1: for every outcome of the individual probes, the snapshot built by
`collect` has exactly the nine fixed section keys, in the fixed order,
each exactly once. -/
theorem collect_keys_fixed (p : ProbeOutput) :
    (collect p).map Prod.fst = sectionKeys ∧ ((collect p).map Prod.fst).Nodup :=
  ⟨rfl, (by decide : sectionKeys.Nodup)⟩

/-- C2, counterexample: when every command produces only whitespace, the
`docker_containers` section stores the empty string, which is not one of
the documented fallback strings — that probe has no fallback in the code. -/
theorem collect_no_fallback_counterexample :
    sectionValue (collect probeWs) "docker_containers" = some "" ∧
    "" ∉ ["(none)", "(empty)", "(no containers running)", "(no logs)",
          "(fail2ban not available)", "(no events)"] := by
  exact ⟨rfl, by decide⟩

/-- C2, amended: every probe whose section carries a fallback in the code
(`docker_stats`, `openclaw_logs`, `established_connections`,
`system_errors`, `monitor_log`, `backup_log`) stores exactly its
documented fallback string when the trimmed output is empty, while
`docker_containers` stores the empty string itself. -/
theorem collect_fallbacks (p : ProbeOutput) :
    (runOut p.dockerStats = "" →
      sectionValue (collect p) "docker_stats" = some "(no containers running)")
  ∧ (runOut p.openclawLogs = "" →
      sectionValue (collect p) "openclaw_logs" = some "(no logs)")
  ∧ (runOut p.establishedConns = "" →
      sectionValue (collect p) "established_connections" = some "(none)")
  ∧ (runOut p.systemErrors = "" →
      sectionValue (collect p) "system_errors" = some "(none)")
  ∧ (runOut p.monitorLog = "" →
      sectionValue (collect p) "monitor_log" = some "(empty)")
  ∧ (runOut p.backupLog = "" →
      sectionValue (collect p) "backup_log" = some "(empty)")
  ∧ (runOut p.dockerContainers = "" →
      sectionValue (collect p) "docker_containers" = some "") := by
  refine ⟨fun h => ?_, fun h => ?_, fun h => ?_, fun h => ?_, fun h => ?_,
    fun h => ?_, fun h => ?_⟩ <;>
    simp [collect, sectionValue, orFallback, h]

/-- C2, witness for the amended statement, at the all-whitespace outcome. -/
theorem collect_fallbacks_witness :
    sectionValue (collect probeWs) "docker_stats" = some "(no containers running)"
  ∧ sectionValue (collect probeWs) "openclaw_logs" = some "(no logs)"
  ∧ sectionValue (collect probeWs) "established_connections" = some "(none)"
  ∧ sectionValue (collect probeWs) "system_errors" = some "(none)"
  ∧ sectionValue (collect probeWs) "monitor_log" = some "(empty)"
  ∧ sectionValue (collect probeWs) "backup_log" = some "(empty)"
  ∧ sectionValue (collect probeWs) "docker_containers" = some "" :=
  ⟨(collect_fallbacks probeWs).1 rfl,
   (collect_fallbacks probeWs).2.1 rfl,
   (collect_fallbacks probeWs).2.2.1 rfl,
   (collect_fallbacks probeWs).2.2.2.1 rfl,
   (collect_fallbacks probeWs).2.2.2.2.1 rfl,
   (collect_fallbacks probeWs).2.2.2.2.2.1 rfl,
   (collect_fallbacks probeWs).2.2.2.2.2.2 rfl⟩

theorem blocksCat_eq_flatten (s : List (String × String)) :
    blocksCat s = (s.map (fun q => sectionBlock q.1 q.2)).flatten := by
  induction s with
  | nil => rfl
  | cons q rest ih => simp [blocksCat, ih]

theorem promptLines_eq_blocks (s : List (String × String)) (now : String) :
    promptLines s now = (promptBlocks s now).flatten := by
  simp [promptLines, promptBlocks, blocksCat_eq_flatten]

theorem blocksCat_delim (s : List (String × String)) : ∀ i : Nat,
    (blocksCat s)[3 * i]? = (s[i]?).map (fun q => "=== " ++ q.1 ++ " ===") := by
  induction s with
  | nil => intro i; simp [blocksCat]
  | cons q rest ih =>
    intro i
    match i with
    | 0 => simp [blocksCat, sectionBlock]
    | i + 1 =>
      show (sectionBlock q.1 q.2 ++ blocksCat rest)[3 * (i + 1)]? = _
      have hl : (sectionBlock q.1 q.2).length = 3 := rfl
      rw [List.getElem?_append_right (by omega)]
      have h : 3 * (i + 1) - (sectionBlock q.1 q.2).length = 3 * i := by omega
      rw [h, ih i, List.getElem?_cons_succ]

theorem blocksCat_content (s : List (String × String)) : ∀ i : Nat,
    (blocksCat s)[3 * i + 1]? = (s[i]?).map Prod.snd := by
  induction s with
  | nil => intro i; simp [blocksCat]
  | cons q rest ih =>
    intro i
    match i with
    | 0 => simp [blocksCat, sectionBlock]
    | i + 1 =>
      show (sectionBlock q.1 q.2 ++ blocksCat rest)[3 * (i + 1) + 1]? = _
      have hl : (sectionBlock q.1 q.2).length = 3 := rfl
      rw [List.getElem?_append_right (by omega)]
      have h : 3 * (i + 1) + 1 - (sectionBlock q.1 q.2).length = 3 * i + 1 := by omega
      rw [h, ih i, List.getElem?_cons_succ]

/-- C3: `build_prompt` is a pure function — equal inputs give
byte-identical output — and it is local: the output is the newline-join
of a preamble block and one block per section, where block `j+1` depends
only on section `j`, so two section lists that agree everywhere except
index `i` produce the same preamble and the same blocks at every other
position. -/
theorem build_prompt_pure_local (s₁ s₂ : List (String × String)) (now : String) (i : Nat) :
    (s₁ = s₂ → build_prompt s₁ now = build_prompt s₂ now)
  ∧ ((∀ j, j ≠ i → s₁[j]? = s₂[j]?) →
      build_prompt s₁ now = String.intercalate "\n" ((promptBlocks s₁ now).flatten)
      ∧ build_prompt s₂ now = String.intercalate "\n" ((promptBlocks s₂ now).flatten)
      ∧ (promptBlocks s₁ now)[0]? = some (preamble now)
      ∧ (promptBlocks s₂ now)[0]? = some (preamble now)
      ∧ ∀ j, j ≠ i → (promptBlocks s₁ now)[j + 1]? = (promptBlocks s₂ now)[j + 1]?) := by
  constructor
  · intro h; rw [h]
  · intro h
    refine ⟨by rw [build_prompt, promptLines_eq_blocks],
            by rw [build_prompt, promptLines_eq_blocks],
            by simp [promptBlocks], by simp [promptBlocks], ?_⟩
    intro j hj
    show ((preamble now :: s₁.map fun q => sectionBlock q.1 q.2)[j + 1]?) =
         ((preamble now :: s₂.map fun q => sectionBlock q.1 q.2)[j + 1]?)
    rw [List.getElem?_cons_succ, List.getElem?_cons_succ,
        List.getElem?_map, List.getElem?_map, h j hj]

/-- C3, witness: purity at an equal pair, and locality for two
one-section lists differing only at section 0 — the preamble block and
the (absent) later blocks agree. -/
theorem build_prompt_pure_local_witness :
    build_prompt [("a", "x")] nowStamp = build_prompt [("a", "x")] nowStamp
  ∧ (promptBlocks [("a", "x")] nowStamp)[0]? = some (preamble nowStamp)
  ∧ (promptBlocks [("a", "x")] nowStamp)[6]? = (promptBlocks [("a", "y")] nowStamp)[6]? :=
  ⟨(build_prompt_pure_local [("a", "x")] [("a", "x")] nowStamp 0).1 rfl,
   ((build_prompt_pure_local [("a", "x")] [("a", "y")] nowStamp 0).2
      (fun j hj => match j, hj with | _ + 1, _ => rfl)).2.2.1,
   ((build_prompt_pure_local [("a", "x")] [("a", "y")] nowStamp 0).2
      (fun j hj => match j, hj with | _ + 1, _ => rfl)).2.2.2.2 5 (by decide)⟩

/-- C4: the output of `build_prompt` is the newline-join of its lines
list; that list starts with the 46 fixed preamble lines, and for each
section `i` carries the delimiter line `=== title ===` at position
`46 + 3i` immediately followed by the section content; a `collect`
snapshot has 9 sections, hence nine delimiters in the fixed order. -/
theorem build_prompt_delimiters (s : List (String × String)) (now : String) :
    build_prompt s now = String.intercalate "\n" (promptLines s now)
  ∧ (promptLines s now).take 46 = preamble now
  ∧ (∀ i t c, s[i]? = some (t, c) →
      (promptLines s now)[46 + 3 * i]? = some ("=== " ++ t ++ " ===")
      ∧ (promptLines s now)[46 + 3 * i + 1]? = some c)
  ∧ ∀ p : ProbeOutput, (collect p).length = 9 := by
  refine ⟨rfl, ?_, ?_, fun p => rfl⟩
  · show ((preamble now) ++ blocksCat s).take 46 = preamble now
    rw [show (46 : Nat) = (preamble now).length from rfl]
    exact List.take_left ..
  · intro i t c hc
    have hl : (preamble now).length = 46 := rfl
    constructor
    · show ((preamble now) ++ blocksCat s)[46 + 3 * i]? = _
      rw [List.getElem?_append_right (by omega)]
      have h : 46 + 3 * i - (preamble now).length = 3 * i := by omega
      rw [h, blocksCat_delim s i, hc]; rfl
    · show ((preamble now) ++ blocksCat s)[46 + 3 * i + 1]? = _
      rw [List.getElem?_append_right (by omega)]
      have h : 46 + 3 * i + 1 - (preamble now).length = 3 * i + 1 := by omega
      rw [h, blocksCat_content s i, hc]; rfl

/-- C4, witness: for a one-section list the delimiter and content sit at
positions 46 and 47 of the lines list. -/
theorem build_prompt_delimiters_witness :
    (promptLines [("k", "v")] nowStamp)[46]? = some "=== k ===" ∧
    (promptLines [("k", "v")] nowStamp)[47]? = some "v" :=
  (build_prompt_delimiters [("k", "v")] nowStamp).2.2.1 0 "k" "v" rfl

theorem tgChunksAux_congr : ∀ f₁ f₂ (l : List Char), l.length ≤ f₁ → l.length ≤ f₂ →
    tgChunksAux f₁ l = tgChunksAux f₂ l := by
  intro f₁
  induction f₁ with
  | zero =>
    intro f₂ l h₁ h₂
    have hl : l = [] := List.eq_nil_of_length_eq_zero (Nat.le_zero.mp h₁)
    subst hl
    cases f₂ <;> rfl
  | succ f ih =>
    intro f₂ l h₁ h₂
    match f₂, l with
    | 0, l =>
      have hl : l = [] := List.eq_nil_of_length_eq_zero (Nat.le_zero.mp h₂)
      subst hl; rfl
    | f₂ + 1, [] => rfl
    | f₂ + 1, c :: cs =>
      show ((c :: cs).take 4000) :: tgChunksAux f ((c :: cs).drop 4000)
         = ((c :: cs).take 4000) :: tgChunksAux f₂ ((c :: cs).drop 4000)
      have hd : ((c :: cs).drop 4000).length = cs.length + 1 - 4000 := by
        rw [List.length_drop]; rfl
      have hc₁ : cs.length + 1 ≤ f + 1 := h₁
      have hc₂ : cs.length + 1 ≤ f₂ + 1 := h₂
      rw [ih f₂ ((c :: cs).drop 4000) (by omega) (by omega)]

theorem tgChunks_cons (c : Char) (cs : List Char) :
    tgChunks (c :: cs) = (c :: cs).take 4000 :: tgChunks ((c :: cs).drop 4000) := by
  show ((c :: cs).take 4000) :: tgChunksAux cs.length ((c :: cs).drop 4000)
     = ((c :: cs).take 4000) :: tgChunksAux ((c :: cs).drop 4000).length ((c :: cs).drop 4000)
  have hd : ((c :: cs).drop 4000).length = cs.length + 1 - 4000 := by
    rw [List.length_drop]; rfl
  rw [tgChunksAux_congr cs.length (((c :: cs).drop 4000).length) _ (by omega) (by omega)]

theorem tgChunksAux_flatten : ∀ fuel (l : List Char), l.length ≤ fuel →
    (tgChunksAux fuel l).flatten = l := by
  intro fuel
  induction fuel with
  | zero =>
    intro l h
    have hl : l = [] := List.eq_nil_of_length_eq_zero (Nat.le_zero.mp h)
    subst hl; rfl
  | succ f ih =>
    intro l h
    match l with
    | [] => rfl
    | c :: cs =>
      show (((c :: cs).take 4000) :: tgChunksAux f ((c :: cs).drop 4000)).flatten = c :: cs
      have hd : ((c :: cs).drop 4000).length = cs.length + 1 - 4000 := by
        rw [List.length_drop]; rfl
      have hc : cs.length + 1 ≤ f + 1 := h
      rw [List.flatten_cons, ih ((c :: cs).drop 4000) (by omega)]
      exact List.take_append_drop 4000 (c :: cs)

theorem tgChunks_flatten (l : List Char) : (tgChunks l).flatten = l :=
  tgChunksAux_flatten l.length l (Nat.le_refl _)

theorem tgChunksAux_length : ∀ fuel (l : List Char), l.length ≤ fuel →
    (tgChunksAux fuel l).length = (l.length + 3999) / 4000 := by
  intro fuel
  induction fuel with
  | zero =>
    intro l h
    have hl : l = [] := List.eq_nil_of_length_eq_zero (Nat.le_zero.mp h)
    subst hl; rfl
  | succ f ih =>
    intro l h
    match l with
    | [] => rfl
    | c :: cs =>
      show (((c :: cs).take 4000) :: tgChunksAux f ((c :: cs).drop 4000)).length
         = ((c :: cs).length + 3999) / 4000
      have hd : ((c :: cs).drop 4000).length = cs.length + 1 - 4000 := by
        rw [List.length_drop]; rfl
      have hc : cs.length + 1 ≤ f + 1 := h
      rw [List.length_cons, ih ((c :: cs).drop 4000) (by omega), hd]
      show (cs.length + 1 - 4000 + 3999) / 4000 + 1 = (cs.length + 1 + 3999) / 4000
      omega

theorem tgChunks_length (l : List Char) :
    (tgChunks l).length = (l.length + 3999) / 4000 :=
  tgChunksAux_length l.length l (Nat.le_refl _)

theorem tgChunksAux_chunk_le : ∀ fuel (l ck : List Char),
    ck ∈ tgChunksAux fuel l → ck.length ≤ 4000 := by
  intro fuel
  induction fuel with
  | zero => intro l ck h; simp [tgChunksAux] at h
  | succ f ih =>
    intro l ck h
    match l with
    | [] => simp [tgChunksAux] at h
    | c :: cs =>
      have hh : ck ∈ ((c :: cs).take 4000) :: tgChunksAux f ((c :: cs).drop 4000) := h
      have hm : ck = (c :: cs).take 4000 ∨ ck ∈ tgChunksAux f ((c :: cs).drop 4000) :=
        List.mem_cons.mp hh
      cases hm with
      | inl he =>
        subst he
        rw [List.length_take]
        exact Nat.min_le_left ..
      | inr hm => exact ih _ ck hm

theorem tgChunks_chunk_le (l ck : List Char) (h : ck ∈ tgChunks l) : ck.length ≤ 4000 :=
  tgChunksAux_chunk_le l.length l ck h

theorem tgChunksAux_map_length : ∀ fuel (l : List Char),
    (tgChunksAux fuel l).map List.length = chunkLensAux fuel l.length := by
  intro fuel
  induction fuel with
  | zero => intro l; rfl
  | succ f ih =>
    intro l
    match l with
    | [] => rfl
    | c :: cs =>
      show ((c :: cs).take 4000).length :: (tgChunksAux f ((c :: cs).drop 4000)).map List.length
         = chunkLensAux (f + 1) (cs.length + 1)
      rw [ih ((c :: cs).drop 4000), List.length_take, List.length_drop]
      rfl

theorem tgChunks_map_length (l : List Char) :
    (tgChunks l).map List.length = chunkLens l.length :=
  tgChunksAux_map_length l.length l

theorem sentChunks_tgLoop (replies : Nat → TgReply) : ∀ (cs : List (List Char)) (i : Nat),
    sentChunks (tgLoop replies i cs) = cs := by
  intro cs
  induction cs with
  | nil => intro i; rfl
  | cons c rest ih =>
    intro i
    show sentChunks (TgEvent.sent c ::
      ((if (replies i).ok then [] else [TgEvent.logged ("TG error: " ++ (replies i).rendered)]) ++
        tgLoop replies (i + 1) rest)) = c :: rest
    cases h : (replies i).ok <;>
      simp [sentChunks, List.filterMap_append, h] <;>
      simpa [sentChunks] using ih (i + 1)

theorem tgLoop_logged (replies : Nat → TgReply) : ∀ (cs : List (List Char)) (i j : Nat),
    j < cs.length → (replies (i + j)).ok = false →
    TgEvent.logged ("TG error: " ++ (replies (i + j)).rendered) ∈ tgLoop replies i cs := by
  intro cs
  induction cs with
  | nil => intro i j hj _; simp at hj
  | cons c rest ih =>
    intro i j hj hok
    match j with
    | 0 =>
      show TgEvent.logged ("TG error: " ++ (replies (i + 0)).rendered) ∈ TgEvent.sent c ::
        ((if (replies i).ok then [] else [TgEvent.logged ("TG error: " ++ (replies i).rendered)]) ++
          tgLoop replies (i + 1) rest)
      rw [Nat.add_zero] at hok ⊢
      rw [if_neg (by rw [hok]; exact Bool.false_ne_true)]
      exact List.mem_cons_of_mem _ (List.mem_append_left _ (List.mem_singleton.mpr rfl))
    | j + 1 =>
      have hh : i + (j + 1) = (i + 1) + j := by omega
      rw [hh] at hok ⊢
      have hmem := ih (i + 1) j (by simp at hj; omega) hok
      show TgEvent.logged _ ∈ TgEvent.sent c :: (_ ++ tgLoop replies (i + 1) rest)
      exact List.mem_cons_of_mem _ (List.mem_append_right _ hmem)

/-- C5: for every text handed to `tg` and every sequence of API replies,
the posted chunks are exactly the 4000-character slices in order: there
are `ceil(L/4000)` of them, each at most 4000 characters, and their
concatenation is the original text. -/
theorem tg_chunking (replies : Nat → TgReply) (text : String) :
    sentChunks (tgModel replies text) = tgChunks text.data
  ∧ (tgChunks text.data).length = (text.data.length + 3999) / 4000
  ∧ (∀ ck, ck ∈ tgChunks text.data → ck.length ≤ 4000)
  ∧ (tgChunks text.data).flatten = text.data :=
  ⟨sentChunks_tgLoop replies (tgChunks text.data) 0,
   tgChunks_length text.data,
   fun ck h => tgChunks_chunk_le text.data ck h,
   tgChunks_flatten text.data⟩

/-- C5, witness: a two-character text is sent as a single chunk of
length at most 4000. -/
theorem tg_chunking_witness :
    sentChunks (tgModel (fun _ => ⟨true, "resp"⟩) "ab") = tgChunks "ab".data
  ∧ (['a', 'b'] : List Char).length ≤ 4000 :=
  ⟨(tg_chunking (fun _ => ⟨true, "resp"⟩) "ab").1,
   (tg_chunking (fun _ => ⟨true, "resp"⟩) "ab").2.2.1 ['a', 'b'] (by decide)⟩

/-- C6, counterexample: with a 9000-character report, `main` hands `tg`
the 47-character header plus the report, so the three chunks have sizes
4000, 4000, 1047 — not 4000, 4000, 1000 as claimed. -/
theorem report9000_chunks_counterexample :
    (tgChunks (deliveredText nowStamp report9000).data).map List.length = [4000, 4000, 1047]
  ∧ ([4000, 4000, 1047] : List Nat) ≠ [4000, 4000, 1000] := by
  constructor
  · rw [tgChunks_map_length]
    have h : (deliveredText nowStamp report9000).data.length = 9047 := by
      show ((("📊 <b>Hourly digest</b> — " ++ nowStamp) ++ " UTC\n\n") ++ report9000).data.length = 9047
      rw [String.data_append, List.length_append]
      have h1 : (("📊 <b>Hourly digest</b> — " ++ nowStamp) ++ " UTC\n\n").data.length = 47 := by decide
      have h2 : report9000.data.length = 9000 := by
        show (List.replicate 9000 'a').length = 9000
        exact List.length_replicate ..
      omega
    rw [h]
    decide
  · decide

/-- C6, amended: when the summarizer returns a 9000-character report and
the timestamp has its standard 16-character shape, delivery sends exactly
3 chunks of sizes 4000, 4000 and 1047 in order — the text handed to `tg`
is the 47-character header plus the report, not the bare report. -/
theorem report9000_chunks (now report : String) (replies : Nat → TgReply)
    (hn : now.data.length = 16) (hr : report.data.length = 9000) :
    (tgChunks (deliveredText now report).data).map List.length = [4000, 4000, 1047]
  ∧ sentChunks (tgModel replies (deliveredText now report))
      = tgChunks (deliveredText now report).data := by
  refine ⟨?_, sentChunks_tgLoop replies _ 0⟩
  rw [tgChunks_map_length]
  have h : (deliveredText now report).data.length = 9047 := by
    show ((("📊 <b>Hourly digest</b> — " ++ now) ++ " UTC\n\n") ++ report).data.length = 9047
    rw [String.data_append, List.length_append, String.data_append, List.length_append,
        String.data_append, List.length_append]
    have h1 : ("📊 <b>Hourly digest</b> — ").data.length = 25 := by decide
    have h2 : (" UTC\n\n").data.length = 6 := by decide
    omega
  rw [h]
  decide

/-- C6, witness for the amended statement, at a concrete 9000-character
report and the fixed timestamp. -/
theorem report9000_chunks_witness :
    (tgChunks (deliveredText nowStamp report9000).data).map List.length = [4000, 4000, 1047] :=
  (report9000_chunks nowStamp report9000 (fun _ => ⟨true, "resp"⟩) (by decide)
    (by show (List.replicate 9000 'a').length = 9000; exact List.length_replicate ..)).1

/-- C9: during chunked delivery, a non-ok JSON reply for chunk `i` is
logged as a TG error while every chunk is still posted, in order — the
posted sequence does not depend on the replies at all. -/
theorem tg_nonok_reply (replies : Nat → TgReply) (text : String) :
    sentChunks (tgModel replies text) = tgChunks text.data
  ∧ ∀ i, i < (tgChunks text.data).length → (replies i).ok = false →
      TgEvent.logged ("TG error: " ++ (replies i).rendered) ∈ tgModel replies text := by
  refine ⟨sentChunks_tgLoop replies _ 0, fun i hi hok => ?_⟩
  have := tgLoop_logged replies (tgChunks text.data) 0 i (by simpa using hi) (by simpa using hok)
  simpa using this

/-- C9, witness: with an always-failing reply the error for chunk 0 is
logged while the chunk list is still fully posted. -/
theorem tg_nonok_reply_witness :
    TgEvent.logged ("TG error: " ++ "resp") ∈ tgModel (fun _ => ⟨false, "resp"⟩) "a"
  ∧ sentChunks (tgModel (fun _ => ⟨false, "resp"⟩) "a") = tgChunks "a".data :=
  ⟨(tg_nonok_reply (fun _ => ⟨false, "resp"⟩) "a").2 0 (by decide) rfl,
   (tg_nonok_reply (fun _ => ⟨false, "resp"⟩) "a").1⟩

/-- C7: when loading the API key fails, the run's outcome is independent
of the probe, summarizer and delivery oracles (no probe executes), the
exit status is 1, and exactly one delivery attempt is made: the error
notice, which carries the error text. -/
theorem credential_failure_run (e : String)
    (c₁ c₂ : Except String ProbeOutput) (k₁ k₂ : String → Except String String)
    (t₁ t₂ : Except String Unit) (now : String) :
    mainModel (.error e) c₁ k₁ t₁ now = mainModel (.error e) c₂ k₂ t₂ now
  ∧ (mainModel (.error e) c₁ k₁ t₁ now).exitCode = 1
  ∧ tgAttemptTexts (mainModel (.error e) c₁ k₁ t₁ now).events = [keyErrNotice e]
  ∧ keyErrNotice e = "🔴 <b>digest error</b>: " ++ e :=
  ⟨rfl, rfl, rfl, rfl⟩

/-- C8, counterexample: the claim quantifies over a delivery failure as
well, but when the delivery step itself is what raises, a
successful-report delivery attempt has already been made. -/
theorem run_failure_counterexample :
    (mainModel (.ok "k") (.ok probeWs) (fun _ => .ok "report")
        (.error "timed out") nowStamp).exitCode = 1
  ∧ Event.tgAttempt (deliveredText nowStamp "report")
      ∈ (mainModel (.ok "k") (.ok probeWs) (fun _ => .ok "report")
          (.error "timed out") nowStamp).events :=
  ⟨rfl, List.mem_cons_of_mem _ (List.mem_cons_of_mem _ (List.mem_cons_of_mem _
    (List.mem_cons_self _ _)))⟩

/-- C8, amended: any failure after credential loading logs the error,
attempts one error notice carrying the error text, and exits 1; when the
failing step is collection or the summarizer call, the error notice is
the only delivery attempt (no successful-report attempt), while when the
delivery step itself raises the successful-report attempt precedes the
notice; if no step raises, the run exits 0 and the only delivery attempt
is the report itself. -/
theorem run_failure_handling (key now e report : String) (p : ProbeOutput)
    (claudeR : String → Except String String) (tgR : Except String Unit) :
    ((mainModel (.ok key) (.error e) claudeR tgR now).exitCode = 1
      ∧ Event.logged ("ERROR: " ++ e) ∈ (mainModel (.ok key) (.error e) claudeR tgR now).events
      ∧ tgAttemptTexts (mainModel (.ok key) (.error e) claudeR tgR now).events = [runErrNotice e])
  ∧ (claudeR (build_prompt (collect p) now) = .error e →
      (mainModel (.ok key) (.ok p) claudeR tgR now).exitCode = 1
      ∧ Event.logged ("ERROR: " ++ e) ∈ (mainModel (.ok key) (.ok p) claudeR tgR now).events
      ∧ tgAttemptTexts (mainModel (.ok key) (.ok p) claudeR tgR now).events = [runErrNotice e])
  ∧ (claudeR (build_prompt (collect p) now) = .ok report → tgR = .error e →
      (mainModel (.ok key) (.ok p) claudeR tgR now).exitCode = 1
      ∧ Event.logged ("ERROR: " ++ e) ∈ (mainModel (.ok key) (.ok p) claudeR tgR now).events
      ∧ tgAttemptTexts (mainModel (.ok key) (.ok p) claudeR tgR now).events
          = [deliveredText now report, runErrNotice e])
  ∧ (claudeR (build_prompt (collect p) now) = .ok report → tgR = .ok () →
      (mainModel (.ok key) (.ok p) claudeR tgR now).exitCode = 0
      ∧ tgAttemptTexts (mainModel (.ok key) (.ok p) claudeR tgR now).events
          = [deliveredText now report]) := by
  refine ⟨⟨rfl, ?_, rfl⟩, fun h => ?_, fun h ht => ?_, fun h ht => ?_⟩
  · simp [mainModel]
  · refine ⟨?_, ?_, ?_⟩ <;> simp [mainModel, h, tgAttemptTexts]
  · subst ht
    refine ⟨?_, ?_, ?_⟩ <;> simp [mainModel, h, tgAttemptTexts]
  · subst ht
    refine ⟨?_, ?_⟩ <;> simp [mainModel, h, tgAttemptTexts]

/-- C8, witness: concrete runs for a summarizer failure, a delivery
failure and a fully successful run. -/
theorem run_failure_handling_witness :
    ((mainModel (.ok "k") (.ok probeWs) (fun _ => .error "timeout") (.ok ()) nowStamp).exitCode = 1
      ∧ tgAttemptTexts (mainModel (.ok "k") (.ok probeWs) (fun _ => .error "timeout")
          (.ok ()) nowStamp).events = [runErrNotice "timeout"])
  ∧ ((mainModel (.ok "k") (.ok probeWs) (fun _ => .ok "r") (.error "refused") nowStamp).exitCode = 1
      ∧ tgAttemptTexts (mainModel (.ok "k") (.ok probeWs) (fun _ => .ok "r")
          (.error "refused") nowStamp).events = [deliveredText nowStamp "r", runErrNotice "refused"])
  ∧ (mainModel (.ok "k") (.ok probeWs) (fun _ => .ok "r") (.ok ()) nowStamp).exitCode = 0 :=
  ⟨⟨((run_failure_handling "k" nowStamp "timeout" "r" probeWs
        (fun _ => .error "timeout") (.ok ())).2.1 rfl).1,
    ((run_failure_handling "k" nowStamp "timeout" "r" probeWs
        (fun _ => .error "timeout") (.ok ())).2.1 rfl).2.2⟩,
   ⟨((run_failure_handling "k" nowStamp "refused" "r" probeWs
        (fun _ => .ok "r") (.error "refused")).2.2.1 rfl rfl).1,
    ((run_failure_handling "k" nowStamp "refused" "r" probeWs
        (fun _ => .ok "r") (.error "refused")).2.2.1 rfl rfl).2.2⟩,
   ((run_failure_handling "k" nowStamp "x" "r" probeWs
        (fun _ => .ok "r") (.ok ())).2.2.2 rfl rfl).1⟩

/-- C10: on the success path the text handed to `tg` is the fixed header
followed by the timestamp, " UTC", two newlines and the report — never
the bare report — and the delivery chunks are the slices of this
prefixed text (their concatenation is the prefixed text). -/
theorem delivered_prefixed (key now report : String) (p : ProbeOutput)
    (claudeR : String → Except String String) (tgR : Except String Unit) :
    (claudeR (build_prompt (collect p) now) = .ok report →
      (tgAttemptTexts (mainModel (.ok key) (.ok p) claudeR tgR now).events).head?
        = some (deliveredText now report))
  ∧ deliveredText now report = "📊 <b>Hourly digest</b> — " ++ now ++ " UTC\n\n" ++ report
  ∧ deliveredText now report ≠ report
  ∧ (tgChunks (deliveredText now report).data).flatten = (deliveredText now report).data := by
  refine ⟨fun h => ?_, rfl, fun hEq => ?_, tgChunks_flatten _⟩
  · cases tgR <;> simp [mainModel, h, tgAttemptTexts]
  · have hlen := congrArg String.length hEq
    rw [deliveredText, String.length_append, String.length_append,
        String.length_append] at hlen
    have h1 : ("📊 <b>Hourly digest</b> — ").length = 25 := rfl
    have h2 : (" UTC\n\n").length = 6 := rfl
    omega

/-- C10, witness: a successful run's first delivery attempt is the
prefixed header text, not the bare report. -/
theorem delivered_prefixed_witness :
    (tgAttemptTexts (mainModel (.ok "k") (.ok probeWs) (fun _ => .ok "r")
        (.ok ()) nowStamp).events).head? = some (deliveredText nowStamp "r") :=
  (delivered_prefixed "k" nowStamp "r" probeWs (fun _ => .ok "r") (.ok ())).1 rfl

end Digest
